import Mathlib

/-!
Verification of the RAG pipeline of `standalone_app.py` (AI Knowledge Base Agent).

The pure core of the application is embedded shallowly:

* `Document`, `DocMetadata` — the LangChain `Document` records produced by the loaders.
* `SessionState` — the Streamlit session state (`st.session_state`): message history,
  `documents`, `vectorstore`, `retriever`, `rag_chain`, plus the contents of the
  persisted index directory `./chroma_db` (modelled as `persistedIndex`, with `none`
  meaning the directory does not exist).
* Loaders `load_pdf`, `load_text`, `load_docx` and the dispatcher
  `process_uploaded_file`.  External parsers (pypdf, python-docx, UTF-8 decoding)
  are not in the repository; an `UploadedFile` therefore carries the outcome each
  parser would produce on the raw bytes (`Except` values), and the loaders' own
  `try/except` handling is translated faithfully.
* The chunker, the vector index, the retriever policy and the RAG chain; the
  operations `create_vectorstore`, `ask_question`, `reset_database` and the
  sidebar upload handler.

External library calls (LangChain's `RecursiveCharacterTextSplitter`,
`Chroma.from_documents`, the Chroma similarity search, and the Perplexity LLM)
have no source under `src/`; where a definition models such a call its doc
comment says so and follows the specification's stated contract for it.
-/

/-- Metadata attached to a `Document`: the loaders always set `source` (filename
or URL); the PDF loader additionally sets a 1-based `page` number. -/
structure DocMetadata where
  source : String
  page : Option Nat
deriving Repr, DecidableEq

/-- A LangChain `Document`: page content plus metadata. Chunks are `Document`s too. -/
structure Document where
  page_content : String
  metadata : DocMetadata
deriving Repr, DecidableEq

/-- One entry of `st.session_state.messages`. -/
structure ChatMessage where
  role : String
  content : String
deriving Repr, DecidableEq

/-- The retriever handle produced by `vectorstore.as_retriever(search_kwargs={"k": 3})`:
it wraps the stored chunks with a fixed top-`k` policy. -/
structure Retriever where
  chunks : List Document
  k : Nat
deriving Repr, DecidableEq

/-- The RAG chain built in `create_vectorstore`: retriever piped into prompt, LLM
and output parsing.  Only the retriever part carries state; the LLM call itself is
supplied externally when the chain is invoked. -/
structure RagChain where
  retriever : Retriever
deriving Repr, DecidableEq

/-- The Streamlit session state together with the persisted index directory.
`persistedIndex = none` models "./chroma_db does not exist". -/
structure SessionState where
  messages : List ChatMessage
  documents : List Document
  vectorstore : Option (List Document)
  retriever : Option Retriever
  rag_chain : Option RagChain
  persistedIndex : Option (List Document)
deriving Repr, DecidableEq

/-- The session state created by the `st.session_state` initialisation block:
everything empty / `None`, and no persisted index directory yet. -/
def initialState : SessionState :=
  { messages := []
    documents := []
    vectorstore := none
    retriever := none
    rag_chain := none
    persistedIndex := none }

instance {ε α : Type} [DecidableEq ε] [DecidableEq α] : DecidableEq (Except ε α) := fun x y =>
  match x, y with
  | Except.error a, Except.error b =>
    if h : a = b then Decidable.isTrue (by rw [h]) else Decidable.isFalse (by simp [h])
  | Except.error _, Except.ok _ => Decidable.isFalse (by simp)
  | Except.ok _, Except.error _ => Decidable.isFalse (by simp)
  | Except.ok a, Except.ok b =>
    if h : a = b then Decidable.isTrue (by rw [h]) else Decidable.isFalse (by simp [h])

/-- An uploaded file, as seen through the external parsers.  The raw bytes are
not modelled; instead the record carries the outcome each external parser
(pypdf page extraction, UTF-8 decoding, python-docx paragraph extraction)
would produce on those bytes, so that each loader's `try/except` around its
parser can be translated faithfully. -/
structure UploadedFile where
  name : String
  pdfPages : Except String (List String)
  utf8Text : Except String String
  docxParagraphs : Except String (List String)
deriving Repr, DecidableEq

/-- Python `str.strip()` on the character list: drop leading and trailing
whitespace. -/
def pyStrip (s : List Char) : List Char :=
  ((s.dropWhile Char.isWhitespace).reverse.dropWhile Char.isWhitespace).reverse

/-- Python `filename.lower().endswith(ext)` for an already-lowercase `ext`.  -/
def lowerEndsWith (name : String) (ext : String) : Bool :=
  ext.data.isSuffixOf (name.data.map Char.toLower)

/-- Python `sep.join(parts)`. -/
def joinWith (sep : String) : List String → String
  | [] => ""
  | [x] => x
  | x :: y :: rest => x ++ sep ++ joinWith sep (y :: rest)

/-- The page loop of `load_pdf`: `for page_num, page in enumerate(pdf_reader.pages)`,
appending a `Document` whenever `page.extract_text()` strips to something
non-empty, with metadata `{"source": filename, "page": page_num + 1}`. -/
def pdfPageLoop (filename : String) : Nat → List String → List Document
  | _, [] => []
  | page_num, text :: rest =>
    if (pyStrip text.data).isEmpty then pdfPageLoop filename (page_num + 1) rest
    else { page_content := text
           metadata := { source := filename, page := some (page_num + 1) } }
      :: pdfPageLoop filename (page_num + 1) rest

/-- `load_pdf`: parse the bytes with pypdf (outcome supplied in `parsed`), emit one
`Document` per page whose extracted text is non-empty after stripping; on a parser
exception, display an error and return no documents.  Returns the documents and
the `st.error` messages displayed. -/
def load_pdf (parsed : Except String (List String)) (filename : String) :
    List Document × List String :=
  match parsed with
  | Except.error e => ([], ["❌ Error loading PDF: " ++ e])
  | Except.ok pages => (pdfPageLoop filename 0 pages, [])

/-- `load_text`: decode the bytes as UTF-8 (outcome supplied in `decoded`) and emit
exactly one `Document`; on a decode exception, display an error and return none. -/
def load_text (decoded : Except String String) (filename : String) :
    List Document × List String :=
  match decoded with
  | Except.error e => ([], ["❌ Error loading text file: " ++ e])
  | Except.ok text => ([{ page_content := text, metadata := { source := filename, page := none } }], [])

/-- `load_docx`: extract the paragraphs with python-docx (outcome supplied in
`paras`), join them with newlines into one `Document`; on a parser exception,
display an error and return no documents. -/
def load_docx (paras : Except String (List String)) (filename : String) :
    List Document × List String :=
  match paras with
  | Except.error e => ([], ["❌ Error loading DOCX file: " ++ e])
  | Except.ok paragraphs =>
    ([{ page_content := joinWith "\n" paragraphs, metadata := { source := filename, page := none } }], [])

/-- `process_uploaded_file`: dispatch on the lower-cased filename extension; an
unrecognised extension displays an error and yields no documents. -/
def process_uploaded_file (f : UploadedFile) : List Document × List String :=
  if lowerEndsWith f.name ".pdf" then load_pdf f.pdfPages f.name
  else if lowerEndsWith f.name ".txt" then load_text f.utf8Text f.name
  else if lowerEndsWith f.name ".docx" then load_docx f.docxParagraphs f.name
  else if lowerEndsWith f.name ".md" then load_text f.utf8Text f.name
  else ([], ["❌ Unsupported file type: " ++ f.name])

/-- Hard character cut with overlap, fuel-indexed so that it is structurally
recursive (the fuel is instantiated with the text length, which always
suffices for a positive step).  Each emitted segment is `text.take cs`; the
window then advances by `step` characters, so consecutive segments share
`cs - step` characters of overlap. -/
def hardCutF (cs step : Nat) : Nat → List Char → List (List Char)
  | _, [] => []
  | 0, text => [text.take cs]
  | fuel + 1, text => text.take cs :: hardCutF cs step fuel (text.drop step)

/-- Hard character cut: segments of `cs` characters, advancing `step` characters
per segment. -/
def hardCut (cs step : Nat) (text : List Char) : List (List Char) :=
  hardCutF cs step text.length text

/-- Split at a separator character, keeping the separator attached to the end of
the piece it terminates, so that concatenating the pieces restores the text. -/
def splitKeepSep (sep : Char) : List Char → List (List Char)
  | [] => []
  | c :: rest =>
    match splitKeepSep sep rest with
    | [] => [[c]]
    | p :: ps => if c = sep then [c] :: p :: ps else (c :: p) :: ps

/-- Modelled from the spec: the merge phase of the chunker.  Adjacent pieces are
greedily packed into a segment of at most `cs` characters; when a piece no
longer fits, the current segment is emitted and a suffix of it of at most `ov`
characters (further shortened so the next piece still fits in `cs`) is carried
over as overlap into the next segment. -/
def mergeLoop (cs ov : Nat) (acc : List Char) : List (List Char) → List (List Char)
  | [] => if acc.isEmpty then [] else [acc]
  | p :: ps =>
    if acc.length + p.length ≤ cs then mergeLoop cs ov (acc ++ p) ps
    else if acc.isEmpty then p :: mergeLoop cs ov [] ps
    else acc :: mergeLoop cs ov (acc.drop (acc.length - min ov (cs - p.length)) ++ p) ps

/-- Modelled from the spec: the recursive splitting strategy of the chunker
(LangChain's `RecursiveCharacterTextSplitter` is not in the repository).
"Splits text into segments of at most 500 characters with 50-character overlap
…, preferring to break at natural boundaries (paragraph, then sentence, then
word) before falling back to a hard character cut."  The text is split at the
first separator; pieces that already fit are kept, oversized pieces are split
recursively at the finer separators, and the resulting pieces are merged
greedily with overlap.  With no separators left the hard character cut applies.
The fuel argument (instantiated with more fuel than separators) makes the
recursion structural; an exhausted fuel also falls back to the hard cut. -/
def recSplitF (cs ov : Nat) : Nat → List Char → List Char → List (List Char)
  | 0, _, text => hardCut cs (cs - ov) text
  | fuel + 1, seps, text =>
    match seps with
    | [] => hardCut cs (cs - ov) text
    | sep :: rest =>
      mergeLoop cs ov []
        ((splitKeepSep sep text).flatMap (fun p =>
          if p.length ≤ cs then [p] else recSplitF cs ov fuel rest p))

/-- The natural boundaries the chunker prefers, coarsest first: paragraph
(newline), sentence (full stop), word (space). -/
def chunkSeparators : List Char := ['\n', '.', ' ']

/-- The chunker configured in `create_vectorstore`:
`RecursiveCharacterTextSplitter(chunk_size=500, chunk_overlap=50)` applied to
one text. -/
def split_text (text : String) : List String :=
  (recSplitF 500 50 (chunkSeparators.length + 1) chunkSeparators text.data).map
    (fun cs => String.mk cs)

/-- `text_splitter.split_documents(documents)`: each document's content is split
into chunks, and every chunk carries the parent document's metadata verbatim. -/
def split_documents (docs : List Document) : List Document :=
  docs.flatMap (fun d =>
    (split_text d.page_content).map (fun c => { page_content := c, metadata := d.metadata }))

example : split_text "hi" = ["hi"] := by decide
example : split_documents [] = [] := by decide
example : split_text "" = [] := by decide

/-- Modelled from the spec: the outcome of `Chroma.from_documents` embedding the
given chunks (the embedding provider and Chroma are not in the repository).
`Except.ok ()` means every chunk embedded and the persisted index now holds
exactly these chunks; `Except.error e` means the call raised, in which case the
spec's contract for the Vector Index is that "the whole rebuild fails and the
index is left in its previous (pre-rebuild) state — no partial index". -/
def EmbedOutcome : Type := List Document → Except String Unit

/-- `create_vectorstore(documents)`: return `None` on an empty list; otherwise
split the documents, embed the splits into a fresh Chroma store persisted at
`./chroma_db`, wrap it in a `k = 3` retriever and a RAG chain, store all three
handles in the session state and return the number of splits.  The surrounding
`try/except` turns an embedding failure into an error display and a return value
of `0`, leaving the session state untouched. -/
def create_vectorstore (emb : EmbedOutcome) (st : SessionState)
    (documents : List Document) : SessionState × Option Nat :=
  if documents.isEmpty then (st, none)
  else
    let splits := split_documents documents
    match emb splits with
    | Except.error _ => (st, some 0)
    | Except.ok _ =>
      let retriever : Retriever := { chunks := splits, k := 3 }
      ({ st with
          vectorstore := some splits
          retriever := some retriever
          rag_chain := some { retriever := retriever }
          persistedIndex := some splits },
        some splits.length)

/-- Modelled from the spec: one invocation of the RAG chain (retrieval, prompt
assembly and the external Perplexity model call).  The model call can error or
time out, which surfaces as `Except.error`. -/
def ChainInvoke : Type := RagChain → String → Except String String

/-- `ask_question(question)`: with no RAG chain the fixed "no documents loaded"
message is returned; otherwise the chain is invoked and any exception from the
model call is caught and returned as an error string. -/
def ask_question (invoke : ChainInvoke) (st : SessionState) (question : String) : String :=
  match st.rag_chain with
  | none => "❌ No documents loaded. Please upload documents first."
  | some chain =>
    match invoke chain question with
    | Except.ok response => response
    | Except.error e => "❌ Error processing question: " ++ e

/-- `reset_database()`: clear the document list, all three pipeline handles and
the message history, and remove the `./chroma_db` directory if it exists. -/
def reset_database (st : SessionState) : SessionState :=
  { st with
      documents := []
      vectorstore := none
      retriever := none
      rag_chain := none
      messages := []
      persistedIndex := none }

/-- Outcome of one run of the sidebar upload handler. -/
inductive UploadOutcome where
  /-- The loader produced no documents, so the `if documents:` guard skipped
  ingestion entirely. -/
  | skipped
  /-- `create_vectorstore` returned a positive chunk count. -/
  | success (chunks : Nat)
  /-- `create_vectorstore` did not return a positive chunk count. -/
  | failed
deriving Repr, DecidableEq

/-- The sidebar upload handler: load the file, and if any documents were
produced, extend `st.session_state.documents` and rebuild the vectorstore from
the full document list, reporting success exactly when the returned chunk count
is positive.  (`create_vectorstore` can return `None` only on an empty document
list, which is unreachable here, so comparing its result with `0` is safe.) -/
def uploadHandler (emb : EmbedOutcome) (st : SessionState) (f : UploadedFile) :
    SessionState × UploadOutcome :=
  let documents := (process_uploaded_file f).1
  if documents.isEmpty then (st, UploadOutcome.skipped)
  else
    let st1 := { st with documents := st.documents ++ documents }
    let result := create_vectorstore emb st1 st1.documents
    match result.2 with
    | some n => if 0 < n then (result.1, UploadOutcome.success n) else (result.1, UploadOutcome.failed)
    | none => (result.1, UploadOutcome.failed)

/-- Modelled from the spec: the Chroma similarity search (not in the repository).
"`search(query_text, k)` returns the k chunks whose embeddings are closest to the
query's embedding …, most-similar first"; the similarity function over stored
chunks is abstracted as `sim`, higher meaning more similar, and the stored
chunks are scored, sorted by descending score and the first `k` taken. -/
def vectorSearch (sim : String → Document → Int) (index : List Document)
    (q : String) (k : Nat) : List (Document × Int) :=
  ((index.map (fun d => (d, sim q d))).mergeSort
    (fun a b => decide (b.2 ≤ a.2))).take k

/-- The retriever produced by `as_retriever(search_kwargs={"k": 3})`: it queries
the index with its fixed `k` and returns the chunks with the scores discarded. -/
def retrieverGetRelevant (sim : String → Document → Int) (r : Retriever)
    (q : String) : List Document :=
  (vectorSearch sim r.chunks q r.k).map Prod.fst

/-- Retrieval at the session level.  In the Empty state the session has no
retriever and `ask_question` short-circuits before any retrieval, so no chunks
are retrieved — per the spec, "Returns an empty sequence (not an error) if the
index is empty or uninitialized". -/
def sessionRetrieve (sim : String → Document → Int) (st : SessionState)
    (q : String) : List Document :=
  match st.retriever with
  | none => []
  | some r => retrieverGetRelevant sim r q

/-- Number of chunks attributable to a given source. -/
def countSource (s : String) (chunks : List Document) : Nat :=
  (chunks.filter (fun c => c.metadata.source == s)).length

/-- A concrete embedding outcome that always succeeds. -/
def embAlwaysOk : EmbedOutcome := fun _ => Except.ok ()

/-- A concrete embedding outcome that always fails. -/
def embAlwaysFails : EmbedOutcome := fun _ => Except.error "embedding failure"

/-- A concrete similarity function. -/
def simZero : String → Document → Int := fun _ _ => 0

/-- A concrete chain invocation that always errors (model timeout). -/
def invokeTimesOut : ChainInvoke := fun _ _ => Except.error "Request timed out"

/-- A concrete plain-text upload: `a.txt` containing `hi`. -/
def sampleTxtFile : UploadedFile :=
  { name := "a.txt"
    pdfPages := Except.error "not a pdf"
    utf8Text := Except.ok "hi"
    docxParagraphs := Except.error "not a docx" }

/-- A concrete upload with an unsupported extension. -/
def sampleXyzFile : UploadedFile :=
  { name := "file.xyz"
    pdfPages := Except.error "not a pdf"
    utf8Text := Except.ok "hi"
    docxParagraphs := Except.error "not a docx" }

/-- Every segment the hard character cut emits has at most `cs` characters. -/
theorem hardCutF_length_le (cs step : Nat) :
    ∀ (fuel : Nat) (text c : List Char), c ∈ hardCutF cs step fuel text → c.length ≤ cs := by
  intro fuel
  induction fuel with
  | zero =>
    intro text c hc
    cases text with
    | nil => simp [hardCutF] at hc
    | cons a as =>
      simp [hardCutF] at hc
      subst hc
      simp
  | succ f ih =>
    intro text c hc
    cases text with
    | nil => simp [hardCutF] at hc
    | cons a as =>
      simp only [hardCutF, List.mem_cons] at hc
      rcases hc with rfl | hc
      · simp
      · exact ih _ _ hc

/-- If the accumulated segment and every remaining piece fit in `cs` characters,
every segment the merge phase emits fits in `cs` characters. -/
theorem mergeLoop_length_le (cs ov : Nat) :
    ∀ (pieces : List (List Char)) (acc : List Char), acc.length ≤ cs →
      (∀ p ∈ pieces, p.length ≤ cs) →
      ∀ c ∈ mergeLoop cs ov acc pieces, c.length ≤ cs := by
  intro pieces
  induction pieces with
  | nil =>
    intro acc hacc _ c hc
    simp only [mergeLoop] at hc
    split at hc
    · simp at hc
    · simp at hc
      subst hc
      exact hacc
  | cons p ps ih =>
    intro acc hacc hall c hc
    have hp : p.length ≤ cs := hall p (by simp)
    have hps : ∀ q ∈ ps, q.length ≤ cs := fun q hq => hall q (by simp [hq])
    simp only [mergeLoop] at hc
    split at hc
    case isTrue hfit =>
      refine ih (acc ++ p) ?_ hps c hc
      simpa using hfit
    case isFalse hnofit =>
      split at hc
      case isTrue hempty =>
        rcases List.mem_cons.mp hc with rfl | hc
        · exact hp
        · exact ih [] (by simp) hps c hc
      case isFalse hne =>
        rcases List.mem_cons.mp hc with rfl | hc
        · exact hacc
        · refine ih _ ?_ hps c hc
          have hmin : min ov (cs - p.length) ≤ cs - p.length := min_le_right _ _
          simp only [List.length_append, List.length_drop]
          omega

/-- Every chunk the recursive splitter emits has at most `cs` characters: the
pieces fed to the merge phase either already fit or come from a recursive split
at a finer separator, and with no separator left the hard cut applies. -/
theorem recSplitF_length_le (cs ov : Nat) :
    ∀ (fuel : Nat) (seps : List Char) (text c : List Char),
      c ∈ recSplitF cs ov fuel seps text → c.length ≤ cs := by
  intro fuel
  induction fuel with
  | zero =>
    intro seps text c hc
    simp only [recSplitF, hardCut] at hc
    exact hardCutF_length_le cs (cs - ov) _ _ _ hc
  | succ f ih =>
    intro seps text c hc
    cases seps with
    | nil =>
      simp only [recSplitF, hardCut] at hc
      exact hardCutF_length_le cs (cs - ov) _ _ _ hc
    | cons sep rest =>
      simp only [recSplitF] at hc
      refine mergeLoop_length_le cs ov _ [] (by simp) ?_ c hc
      intro p hpmem
      rcases List.mem_flatMap.mp hpmem with ⟨q, _, hpq⟩
      by_cases hlen : q.length ≤ cs
      · simp [hlen] at hpq
        subst hpq
        exact hlen
      · simp [hlen] at hpq
        exact ih rest q p hpq

/-- On a non-empty document list whose splits embed successfully,
`create_vectorstore` installs the splits as the vectorstore, a `k = 3`
retriever, a chain over that retriever and the persisted index, and returns
the number of splits. -/
theorem create_vectorstore_ok (emb : EmbedOutcome) (st : SessionState)
    (documents : List Document) (hne : documents ≠ [])
    (hok : emb (split_documents documents) = Except.ok ()) :
    create_vectorstore emb st documents =
      ({ st with
          vectorstore := some (split_documents documents)
          retriever := some { chunks := split_documents documents, k := 3 }
          rag_chain := some { retriever := { chunks := split_documents documents, k := 3 } }
          persistedIndex := some (split_documents documents) },
        some (split_documents documents).length) := by
  have hfalse : documents.isEmpty = false := by simpa using hne
  simp [create_vectorstore, hfalse, hok]

/-- On a non-empty document list whose embedding fails, `create_vectorstore`
returns `0` and leaves the session state — handles and persisted index —
untouched. -/
theorem create_vectorstore_fail (emb : EmbedOutcome) (st : SessionState)
    (documents : List Document) (e : String) (hne : documents ≠ [])
    (hfail : emb (split_documents documents) = Except.error e) :
    create_vectorstore emb st documents = (st, some 0) := by
  have hfalse : documents.isEmpty = false := by simpa using hne
  simp [create_vectorstore, hfalse, hfail]

/-- The state after a successful upload: documents extended and all index
handles rebuilt from the splits of the full document list. -/
theorem uploadHandler_ok (emb : EmbedOutcome) (st : SessionState) (f : UploadedFile)
    (hemb : ∀ l, emb l = Except.ok ())
    (hne : (process_uploaded_file f).1 ≠ []) :
    (uploadHandler emb st f).1 =
      { st with
          documents := st.documents ++ (process_uploaded_file f).1
          vectorstore := some (split_documents (st.documents ++ (process_uploaded_file f).1))
          retriever := some { chunks := split_documents (st.documents ++ (process_uploaded_file f).1), k := 3 }
          rag_chain := some { retriever :=
            { chunks := split_documents (st.documents ++ (process_uploaded_file f).1), k := 3 } }
          persistedIndex := some (split_documents (st.documents ++ (process_uploaded_file f).1)) } := by
  have hA : st.documents ++ (process_uploaded_file f).1 ≠ [] := by
    intro hcontra
    exact hne (List.append_eq_nil.mp hcontra).2
  have hdocs : ((process_uploaded_file f).1).isEmpty = false := by simpa using hne
  have hcreate := create_vectorstore_ok emb
    { st with documents := st.documents ++ (process_uploaded_file f).1 }
    (st.documents ++ (process_uploaded_file f).1) hA (hemb _)
  simp only [uploadHandler, hdocs, Bool.false_eq_true, if_false, hcreate]
  split <;> rfl

/-- Splitting a concatenation of document lists splits each list. -/
theorem split_documents_append (xs ys : List Document) :
    split_documents (xs ++ ys) = split_documents xs ++ split_documents ys := by
  simp [split_documents]

/-- `countSource` is additive over concatenation. -/
theorem countSource_append (s : String) (xs ys : List Document) :
    countSource s (xs ++ ys) = countSource s xs + countSource s ys := by
  simp [countSource]

/-- No chunk derived from documents of other sources counts towards `s`:
the chunker copies each parent document's metadata verbatim. -/
theorem countSource_split_of_not_source (s : String) (docs : List Document)
    (h : ∀ d ∈ docs, d.metadata.source ≠ s) :
    countSource s (split_documents docs) = 0 := by
  rw [countSource, List.length_eq_zero, List.filter_eq_nil_iff]
  intro c hc
  rcases List.mem_flatMap.mp hc with ⟨d, hd, hcd⟩
  rcases List.mem_map.mp hcd with ⟨chunkStr, _, rfl⟩
  simpa using h d hd

/-- Written from the spec (the refinement target for the PDF loader): "PDF
loader extracts page-by-page text, emitting one Document per non-empty page
with `page` metadata; pages that extract to empty/whitespace are silently
dropped (not an error)."  `pageNo` is the 1-based number of the first page of
the list; the metadata of each emitted Document is the source filename and the
page's 1-based number. -/
def pdfLoaderSpec (filename : String) : Nat → List String → List Document
  | _, [] => []
  | pageNo, t :: ts =>
    if (pyStrip t.data).isEmpty then pdfLoaderSpec filename (pageNo + 1) ts
    else { page_content := t, metadata := { source := filename, page := some pageNo } }
      :: pdfLoaderSpec filename (pageNo + 1) ts

/-- The 0-based page loop of the code refines the 1-based page description of
the spec. -/
theorem pdfPageLoop_eq_spec (filename : String) :
    ∀ (pages : List String) (n : Nat),
      pdfPageLoop filename n pages = pdfLoaderSpec filename (n + 1) pages := by
  intro pages
  induction pages with
  | nil => intro n; rfl
  | cons t ts ih =>
    intro n
    by_cases h : (pyStrip t.data).isEmpty <;>
      simp [pdfPageLoop, pdfLoaderSpec, h, ih]

/-- Claim C1 — after every successful ingest through the upload handler, the
vectorstore and the persisted index contain exactly the chunks derived from
the entire current document list (so no upload leaves the index stale), and
the reported chunk count is their number. -/
theorem ingest_index_matches_document_list (emb : EmbedOutcome) (st : SessionState)
    (f : UploadedFile) (st2 : SessionState) (n : Nat)
    (h : uploadHandler emb st f = (st2, UploadOutcome.success n)) :
    st2.vectorstore = some (split_documents st2.documents)
      ∧ st2.persistedIndex = some (split_documents st2.documents)
      ∧ n = (split_documents st2.documents).length := by
  by_cases hempty : ((process_uploaded_file f).1).isEmpty = true
  · simp [uploadHandler, hempty] at h
  · have hne : (process_uploaded_file f).1 ≠ [] := by simpa using hempty
    have hAne : st.documents ++ (process_uploaded_file f).1 ≠ [] :=
      fun hc => hne (List.append_eq_nil.mp hc).2
    cases hembr : emb (split_documents (st.documents ++ (process_uploaded_file f).1)) with
    | error e =>
      have hfail := create_vectorstore_fail emb
        { st with documents := st.documents ++ (process_uploaded_file f).1 }
        (st.documents ++ (process_uploaded_file f).1) e hAne hembr
      simp [uploadHandler, hempty, hfail] at h
    | ok u =>
      cases u
      have hok := create_vectorstore_ok emb
        { st with documents := st.documents ++ (process_uploaded_file f).1 }
        (st.documents ++ (process_uploaded_file f).1) hAne hembr
      by_cases hpos : 0 < (split_documents (st.documents ++ (process_uploaded_file f).1)).length
      · have hrun : uploadHandler emb st f =
            ({ st with
                documents := st.documents ++ (process_uploaded_file f).1
                vectorstore := some (split_documents (st.documents ++ (process_uploaded_file f).1))
                retriever := some { chunks := split_documents (st.documents ++ (process_uploaded_file f).1), k := 3 }
                rag_chain := some { retriever :=
                  { chunks := split_documents (st.documents ++ (process_uploaded_file f).1), k := 3 } }
                persistedIndex := some (split_documents (st.documents ++ (process_uploaded_file f).1)) },
              UploadOutcome.success (split_documents (st.documents ++ (process_uploaded_file f).1)).length) := by
          simp [uploadHandler, hempty, hok, hpos]
        rw [hrun] at h
        have hst2 : st2 = { st with
            documents := st.documents ++ (process_uploaded_file f).1
            vectorstore := some (split_documents (st.documents ++ (process_uploaded_file f).1))
            retriever := some { chunks := split_documents (st.documents ++ (process_uploaded_file f).1), k := 3 }
            rag_chain := some { retriever :=
              { chunks := split_documents (st.documents ++ (process_uploaded_file f).1), k := 3 } }
            persistedIndex := some (split_documents (st.documents ++ (process_uploaded_file f).1)) } :=
          (congrArg Prod.fst h).symm
        have hn : UploadOutcome.success (split_documents (st.documents ++ (process_uploaded_file f).1)).length
            = UploadOutcome.success n := congrArg Prod.snd h
        subst hst2
        exact ⟨rfl, rfl, (UploadOutcome.success.inj hn).symm⟩
      · have hrun : uploadHandler emb st f =
            ({ st with
                documents := st.documents ++ (process_uploaded_file f).1
                vectorstore := some (split_documents (st.documents ++ (process_uploaded_file f).1))
                retriever := some { chunks := split_documents (st.documents ++ (process_uploaded_file f).1), k := 3 }
                rag_chain := some { retriever :=
                  { chunks := split_documents (st.documents ++ (process_uploaded_file f).1), k := 3 } }
                persistedIndex := some (split_documents (st.documents ++ (process_uploaded_file f).1)) },
              UploadOutcome.failed) := by
          simp [uploadHandler, hempty, hok, hpos]
        rw [hrun] at h
        have := congrArg Prod.snd h
        simp at this

/-- The session state after one successful sample ingest. -/
def ingestOnceState : SessionState := (uploadHandler embAlwaysOk initialState sampleTxtFile).1

/-- The session state after the same sample file is ingested a second time. -/
def ingestTwiceState : SessionState := (uploadHandler embAlwaysOk ingestOnceState sampleTxtFile).1

/-- Witness for claim C1 at a concrete upload. -/
theorem ingest_index_matches_document_list_witness :
    ingestOnceState.vectorstore = some (split_documents ingestOnceState.documents)
      ∧ ingestOnceState.persistedIndex = some (split_documents ingestOnceState.documents)
      ∧ 1 = (split_documents ingestOnceState.documents).length :=
  ingest_index_matches_document_list embAlwaysOk initialState sampleTxtFile
    ingestOnceState 1 (by decide)

/-- Claim C2 — for every question, `reset_database` followed by `ask_question`
returns the fixed "no documents loaded" message, and after the reset the
persisted index directory `./chroma_db` does not exist. -/
theorem reset_then_ask_no_documents (invoke : ChainInvoke) (st : SessionState) (q : String) :
    ask_question invoke (reset_database st) q
        = "❌ No documents loaded. Please upload documents first."
      ∧ (reset_database st).persistedIndex = none :=
  ⟨rfl, rfl⟩

/-- Claim C3 — on a parsed PDF the loader emits exactly one `Document` per page
whose extracted text is non-empty after stripping, with source and 1-based page
metadata (the refinement target `pdfLoaderSpec` states this page by page); it
displays no error, and a PDF whose only page strips to whitespace yields zero
documents. -/
theorem pdf_loader_per_page (pages : List String) (filename : String) :
    (load_pdf (Except.ok pages) filename).1 = pdfLoaderSpec filename 1 pages
      ∧ (load_pdf (Except.ok pages) filename).2 = []
      ∧ (∀ ws : String, pyStrip ws.data = [] →
          (load_pdf (Except.ok [ws]) filename).1 = []) := by
  refine ⟨?_, rfl, ?_⟩
  · simpa using pdfPageLoop_eq_spec filename pages 0
  · intro ws hws
    simp [load_pdf, pdfPageLoop, hws]

/-- Witness for claim C3: a PDF whose only page is whitespace yields zero
documents. -/
theorem pdf_loader_per_page_witness :
    (load_pdf (Except.ok ["   "]) "doc.pdf").1 = [] :=
  (pdf_loader_per_page ["   "] "doc.pdf").2.2 "   " (by decide)

/-- Claim C4 — an uploaded file whose extension is none of pdf/txt/docx/md
produces zero documents together with an unsupported-file-type error message,
and the upload handler leaves the session state (in particular the document
list) unchanged, finishing without failure. -/
theorem unsupported_extension_is_skipped (f : UploadedFile) (emb : EmbedOutcome)
    (st : SessionState)
    (h1 : lowerEndsWith f.name ".pdf" = false)
    (h2 : lowerEndsWith f.name ".txt" = false)
    (h3 : lowerEndsWith f.name ".docx" = false)
    (h4 : lowerEndsWith f.name ".md" = false) :
    process_uploaded_file f = ([], ["❌ Unsupported file type: " ++ f.name])
      ∧ uploadHandler emb st f = (st, UploadOutcome.skipped) := by
  have hp : process_uploaded_file f = ([], ["❌ Unsupported file type: " ++ f.name]) := by
    simp [process_uploaded_file, h1, h2, h3, h4]
  exact ⟨hp, by simp [uploadHandler, hp]⟩

/-- Witness for claim C4 at a concrete `.xyz` upload. -/
theorem unsupported_extension_is_skipped_witness :
    process_uploaded_file sampleXyzFile
        = ([], ["❌ Unsupported file type: " ++ sampleXyzFile.name])
      ∧ uploadHandler embAlwaysOk initialState sampleXyzFile
        = (initialState, UploadOutcome.skipped) :=
  unsupported_extension_is_skipped sampleXyzFile embAlwaysOk initialState
    (by decide) (by decide) (by decide) (by decide)

/-- Claim C5 — every chunk the chunker emits has content of at most 500
characters (the fall-back hard character cut makes even the atomic-unit
exception unnecessary). -/
theorem chunk_length_bounded (docs : List Document) (c : Document)
    (hc : c ∈ split_documents docs) : c.page_content.length ≤ 500 := by
  rcases List.mem_flatMap.mp hc with ⟨d, _, hcd⟩
  rcases List.mem_map.mp hcd with ⟨chunkStr, hs, rfl⟩
  rcases List.mem_map.mp hs with ⟨l, hl, rfl⟩
  exact recSplitF_length_le 500 50 _ _ _ _ hl

/-- Witness for claim C5 at a concrete document and chunk. -/
theorem chunk_length_bounded_witness :
    (Document.mk "hi" (DocMetadata.mk "a.txt" none)).page_content.length ≤ 500 :=
  chunk_length_bounded [Document.mk "hi" (DocMetadata.mk "a.txt" none)]
    (Document.mk "hi" (DocMetadata.mk "a.txt" none)) (by decide)

/-- Claim C6 — if embedding the splits fails, `create_vectorstore` returns `0`
with the session state (vectorstore, retriever, chain handles and the persisted
index) exactly as before, and the upload handler finishes the ingest non-fatally
with a failure outcome: no partial index is produced. -/
theorem embedding_failure_aborts :
    (∀ (emb : EmbedOutcome) (st : SessionState) (docs : List Document) (e : String),
        docs ≠ [] → emb (split_documents docs) = Except.error e →
        create_vectorstore emb st docs = (st, some 0))
    ∧ (∀ (emb : EmbedOutcome) (st : SessionState) (f : UploadedFile) (e : String),
        (process_uploaded_file f).1 ≠ [] →
        emb (split_documents (st.documents ++ (process_uploaded_file f).1)) = Except.error e →
        uploadHandler emb st f =
          ({ st with documents := st.documents ++ (process_uploaded_file f).1 },
            UploadOutcome.failed)) := by
  constructor
  · intro emb st docs e hne hfail
    exact create_vectorstore_fail emb st docs e hne hfail
  · intro emb st f e hne hfail
    have hempty : ((process_uploaded_file f).1).isEmpty = false := by simpa using hne
    have hAne : st.documents ++ (process_uploaded_file f).1 ≠ [] :=
      fun hc => hne (List.append_eq_nil.mp hc).2
    have hfailrun := create_vectorstore_fail emb
      { st with documents := st.documents ++ (process_uploaded_file f).1 }
      (st.documents ++ (process_uploaded_file f).1) e hAne hfail
    simp [uploadHandler, hempty, hfailrun]

/-- Witness for claim C6 at a concrete failing embedding. -/
theorem embedding_failure_aborts_witness :
    create_vectorstore embAlwaysFails initialState
        [Document.mk "hi" (DocMetadata.mk "a.txt" none)] = (initialState, some 0) :=
  embedding_failure_aborts.1 embAlwaysFails initialState
    [Document.mk "hi" (DocMetadata.mk "a.txt" none)] "embedding failure"
    (by decide) rfl

/-- Claim C7 — when the model call behind the RAG chain errors or times out,
`ask_question` returns the failure as an answer string (it is a total function,
so no exception escapes to the caller). -/
theorem ask_surfaces_model_error (invoke : ChainInvoke) (st : SessionState)
    (q : String) (chain : RagChain) (e : String)
    (hchain : st.rag_chain = some chain) (herr : invoke chain q = Except.error e) :
    ask_question invoke st q = "❌ Error processing question: " ++ e := by
  simp [ask_question, hchain, herr]

/-- A concrete session state whose RAG chain is installed. -/
def readyStateExample : SessionState :=
  { initialState with rag_chain := some { retriever := { chunks := [], k := 3 } } }

/-- Witness for claim C7 at a concrete timed-out model call. -/
theorem ask_surfaces_model_error_witness :
    ask_question invokeTimesOut readyStateExample "q"
      = "❌ Error processing question: Request timed out" :=
  ask_surfaces_model_error invokeTimesOut readyStateExample "q"
    { retriever := { chunks := [], k := 3 } } "Request timed out" rfl rfl

/-- Claim C8 — ingesting the same file twice in succession yields twice as many
chunks attributable to its source as ingesting it once: neither the chunker nor
the index deduplicates. -/
theorem double_ingest_doubles_source_chunks (emb : EmbedOutcome) (st : SessionState)
    (f : UploadedFile) (st1 st2 : SessionState) (o1 o2 : UploadOutcome)
    (hemb : ∀ l, emb l = Except.ok ())
    (hsrc : ∀ d ∈ st.documents, d.metadata.source ≠ f.name)
    (hne : (process_uploaded_file f).1 ≠ [])
    (h1 : uploadHandler emb st f = (st1, o1))
    (h2 : uploadHandler emb st1 f = (st2, o2)) :
    countSource f.name (st2.vectorstore.getD [])
      = 2 * countSource f.name (st1.vectorstore.getD []) := by
  obtain rfl : st1 = (uploadHandler emb st f).1 := by rw [h1]
  obtain rfl : st2 = (uploadHandler emb (uploadHandler emb st f).1 f).1 := by rw [h2]
  rw [uploadHandler_ok emb st f hemb hne]
  rw [uploadHandler_ok emb _ f hemb hne]
  simp only [Option.getD_some, split_documents_append, countSource_append,
    countSource_split_of_not_source f.name st.documents hsrc]
  omega

/-- Witness for claim C8: ingesting `a.txt` twice gives two chunks from that
source against one after a single ingest. -/
theorem double_ingest_doubles_source_chunks_witness :
    countSource "a.txt" (ingestTwiceState.vectorstore.getD [])
      = 2 * countSource "a.txt" (ingestOnceState.vectorstore.getD []) :=
  double_ingest_doubles_source_chunks embAlwaysOk initialState sampleTxtFile
    ingestOnceState ingestTwiceState
    (uploadHandler embAlwaysOk initialState sampleTxtFile).2
    (uploadHandler embAlwaysOk ingestOnceState sampleTxtFile).2
    (fun _ => rfl) (by intro d hd; simp [initialState] at hd) (by decide) rfl rfl

/-- Claim C9 — retrieval with no retriever installed (Empty state) or an empty
index yields the empty sequence, not an error; the retriever returns the search
results with the scores discarded and in similarity order (descending score);
and the retriever `create_vectorstore` installs always carries `k = 3`. -/
theorem retriever_fixed_policy :
    (∀ (sim : String → Document → Int) (st : SessionState) (q : String),
        st.retriever = none → sessionRetrieve sim st q = [])
    ∧ (∀ (sim : String → Document → Int) (r : Retriever) (q : String),
        r.chunks = [] → retrieverGetRelevant sim r q = [])
    ∧ (∀ (sim : String → Document → Int) (r : Retriever) (q : String),
        retrieverGetRelevant sim r q = (vectorSearch sim r.chunks q r.k).map Prod.fst)
    ∧ (∀ (emb : EmbedOutcome) (st : SessionState) (docs : List Document),
        docs ≠ [] → emb (split_documents docs) = Except.ok () →
        (create_vectorstore emb st docs).1.retriever
          = some { chunks := split_documents docs, k := 3 })
    ∧ (∀ (sim : String → Document → Int) (index : List Document) (q : String) (k : Nat),
        List.Pairwise (fun a b => b.2 ≤ a.2) (vectorSearch sim index q k)) := by
  refine ⟨?_, ?_, ?_, ?_, ?_⟩
  · intro sim st q hnone
    simp [sessionRetrieve, hnone]
  · intro sim r q hnil
    simp [retrieverGetRelevant, vectorSearch, hnil]
  · intro sim r q
    rfl
  · intro emb st docs hne hok
    rw [create_vectorstore_ok emb st docs hne hok]
  · intro sim index q k
    have htrans : ∀ a b c : Document × Int,
        decide (b.2 ≤ a.2) = true → decide (c.2 ≤ b.2) = true → decide (c.2 ≤ a.2) = true := by
      intro a b c hab hbc
      simp only [decide_eq_true_eq] at hab hbc ⊢
      exact le_trans hbc hab
    have htotal : ∀ a b : Document × Int,
        (decide (b.2 ≤ a.2) || decide (a.2 ≤ b.2)) = true := by
      intro a b
      simpa using le_total b.2 a.2
    have hs := List.sorted_mergeSort htrans htotal (index.map (fun d => (d, sim q d)))
    have htake := List.Pairwise.sublist (List.take_sublist k _) hs
    refine htake.imp ?_
    intro a b hab
    simpa using hab

/-- Witness for claim C9: empty-state retrieval, empty-index retrieval and the
installed `k = 3` at concrete inputs. -/
theorem retriever_fixed_policy_witness :
    sessionRetrieve simZero initialState "q" = []
      ∧ retrieverGetRelevant simZero (Retriever.mk [] 3) "q" = []
      ∧ (create_vectorstore embAlwaysOk initialState
            [Document.mk "hi" (DocMetadata.mk "a.txt" none)]).1.retriever
          = some { chunks := split_documents [Document.mk "hi" (DocMetadata.mk "a.txt" none)],
                   k := 3 } :=
  ⟨retriever_fixed_policy.1 simZero initialState "q" rfl,
   retriever_fixed_policy.2.1 simZero (Retriever.mk [] 3) "q" rfl,
   retriever_fixed_policy.2.2.2.1 embAlwaysOk initialState
     [Document.mk "hi" (DocMetadata.mk "a.txt" none)] (by decide) rfl⟩

/-- Claim C10 — `create_vectorstore` on an empty document list returns `None`
(not a chunk count of `0`) and leaves the whole session state, in particular the
vectorstore, retriever and chain handles, unchanged. -/
theorem empty_document_list_returns_none (emb : EmbedOutcome) (st : SessionState) :
    create_vectorstore emb st [] = (st, none) := rfl
